import Mathlib

/-!
Verification of the project-camp backend's role-based authorization and
request-validation pipeline, and of its note routes, controllers and
boundary error handler, against the natural-language specification.

The definitions below are a shallow embedding of the JavaScript source:
 - pure helpers become Lean functions;
 - stateful controllers become explicit state passing over a record of the
   persistent store;
 - thrown ApiError values become the error side of an Except.

Where the deciding JavaScript file is not part of the provided sources
(auth.middleware.js, validator.middleware.js, constants.js are only
imported by the provided note.routes.js), the definition is modelled from
the specification and its doc comment says so.
-/

namespace ProjectCamp

/-- Modelled from the spec: src/utils/constants.js is not among the provided
sources.  Spec section 3 describes the role as one of an enumerated, closed
set (ADMIN, PROJECT_ADMIN, MEMBER). -/
inductive Role where
  | admin
  | projectAdmin
  | member
deriving DecidableEq

/-- Modelled from the spec: src/utils/constants.js is not among the provided
sources.  AvailableUserRoles is the full enumerated role set. -/
def AvailableUserRoles : List Role := [Role.admin, Role.projectAdmin, Role.member]

/-- Reason a request is denied by the Permission Gate (spec section 4.3). -/
inductive DenyReason where
  | notAMember
  | insufficientRole
deriving DecidableEq

/-- Authorization decision of the Permission Gate (spec section 4.3). -/
inductive Decision where
  | allow (role : Role)
  | deny (reason : DenyReason)
deriving DecidableEq

/-- The Membership table held by the external persistent store: rows of
(user id, project id, role); spec section 3. -/
structure MembershipDB where
  rows : List (Nat × Nat × Role)
deriving DecidableEq

/-- Modelled from the spec: the Project Membership Resolver of section 4.2
(src/middlewares/auth.middleware.js is not among the provided sources).
A single lookup keyed by the composite (user, project). -/
def lookupRole (db : MembershipDB) (userId projectId : Nat) : Option Role :=
  (db.rows.find? (fun row => row.1 == userId && row.2.1 == projectId)).map
    (fun row => row.2.2)

/-- Modelled from the spec: validateProjectPermission in
src/middlewares/auth.middleware.js is not among the provided sources.
Spec section 4.3 algorithm: resolve the membership role; no membership gives
Deny(NotAMember); a role outside allowedRoles gives Deny(InsufficientRole);
otherwise Allow(role). -/
def authorize (db : MembershipDB) (userId projectId : Nat)
    (allowedRoles : List Role) : Decision :=
  match lookupRole db userId projectId with
  | none => Decision.deny DenyReason.notAMember
  | some role =>
      if role ∈ allowedRoles then Decision.allow role
      else Decision.deny DenyReason.insufficientRole

/-- The gate as a state transformer over the membership store: it reads the
store and produces a decision, returning the store it leaves behind.  The
source middleware only reads; this makes that explicit. -/
def authorizeRun (db : MembershipDB) (userId projectId : Nat)
    (allowedRoles : List Role) : Decision × MembershipDB :=
  (authorize db userId projectId allowedRoles, db)

/-- Claim C1: authorize returns Allow(role) iff a membership row exists for
(identity, projectId) and that membership's role is in allowedRoles;
Deny(NotAMember) exactly when no membership exists; Deny(InsufficientRole)
exactly when the membership's role is outside allowedRoles. -/
theorem authorize_allow_iff_membership (db : MembershipDB) (u p : Nat)
    (roles : List Role) :
    (∀ r : Role, authorize db u p roles = Decision.allow r ↔
        lookupRole db u p = some r ∧ r ∈ roles) ∧
    (authorize db u p roles = Decision.deny DenyReason.notAMember ↔
        lookupRole db u p = none) ∧
    (authorize db u p roles = Decision.deny DenyReason.insufficientRole ↔
        ∃ r : Role, lookupRole db u p = some r ∧ r ∉ roles) := by
  unfold authorize
  cases h : lookupRole db u p with
  | none => simp
  | some r0 =>
      by_cases hr : r0 ∈ roles
      · simp only [hr, if_pos]
        refine ⟨?_, by simp, by simp [hr]⟩
        intro r
        constructor
        · intro hall
          cases hall
          exact ⟨rfl, hr⟩
        · rintro ⟨hsome, _⟩
          cases hsome
          rfl
      · simp only [hr, if_neg, if_false]
        refine ⟨by simp [hr], by simp, ?_⟩
        simp only [true_iff]
        exact ⟨r0, rfl, hr⟩

/-- Claim C7: the Permission Gate is idempotent and side-effect-free: it
leaves the membership store unchanged, and running it again on the store it
returns yields the identical decision. -/
theorem authorize_idempotent_pure (db : MembershipDB) (u p : Nat)
    (roles : List Role) :
    (authorizeRun db u p roles).2 = db ∧
    (authorizeRun (authorizeRun db u p roles).2 u p roles).1 =
      (authorizeRun db u p roles).1 := ⟨rfl, rfl⟩

/-- A bearer token after decoding: the identity it references, whether its
signature checks out against the key material, and its expiry instant.  A
request carries either no decodable token (missing or malformed, both of
which fail decoding) or a decoded one. -/
structure Token where
  userId : Nat
  sigValid : Bool
  exp : Nat
deriving DecidableEq

/-- The single failure class of the Credential Verifier (spec section 4.1 and
section 7 taxonomy). -/
inductive AuthError where
  | unauthenticated
deriving DecidableEq

/-- Modelled from the spec: verifyJWT in src/middlewares/auth.middleware.js
is not among the provided sources.  Spec section 4.1: decode, check signature
validity and expiry; missing, malformed, signature-invalid and expired tokens
all fail with the one class Unauthenticated; section 3: validity requires
signature correctness AND not-expired. -/
def verifyJWT (now : Nat) (tok : Option Token) : Except AuthError Nat :=
  match tok with
  | none => Except.error AuthError.unauthenticated
  | some t =>
      if t.sigValid && decide (now < t.exp) then Except.ok t.userId
      else Except.error AuthError.unauthenticated

/-- Claim C4: a missing or malformed token (decode failure), an
invalid-signature token and an expired token all fail with the single error
class Unauthenticated, which has no other inhabitant, and the verifier's
output on a bad decoded token is literally the output on a malformed one, so
nothing observable distinguishes the cases. -/
theorem verifyJWT_single_failure_class (now : Nat) (t : Token) :
    verifyJWT now none = Except.error AuthError.unauthenticated ∧
    (t.sigValid = false →
      verifyJWT now (some t) = Except.error AuthError.unauthenticated) ∧
    (t.exp ≤ now →
      verifyJWT now (some t) = Except.error AuthError.unauthenticated) ∧
    (∀ e : AuthError, e = AuthError.unauthenticated) ∧
    (t.sigValid = false ∨ t.exp ≤ now →
      verifyJWT now (some t) = verifyJWT now none) := by
  refine ⟨rfl, ?_, ?_, ?_, ?_⟩
  · intro hsig
    simp [verifyJWT, hsig]
  · intro hexp
    simp [verifyJWT, Nat.not_lt.mpr hexp]
  · intro e
    cases e
    rfl
  · rintro (hsig | hexp)
    · simp [verifyJWT, hsig]
    · simp [verifyJWT, Nat.not_lt.mpr hexp]

/-- Witness for C4: the concrete signature-invalid token is refused with
Unauthenticated. -/
theorem verifyJWT_single_failure_class_witness :
    (⟨7, false, 100⟩ : Token).sigValid = false ∧
    verifyJWT 5 (some ⟨7, false, 100⟩) =
      Except.error AuthError.unauthenticated :=
  ⟨rfl, (verifyJWT_single_failure_class 5 ⟨7, false, 100⟩).2.1 rfl⟩

/-- HTTP method of a route declaration in src/routes/note.routes.js. -/
inductive Method where
  | get
  | post
  | put
  | delete
deriving DecidableEq

/-- One middleware stage of a note route chain, as named in
src/routes/note.routes.js. -/
inductive Stage where
  | verifyJWT
  | validateProjectPermission (allowedRoles : List Role)
  | notesValidator
  | validate
  | handler (name : String)
deriving DecidableEq

/-- A route of the note router: method, path pattern, and the middleware
chain the request walks, in declaration order. -/
structure NoteRoute where
  method : Method
  path : String
  chain : List Stage
deriving DecidableEq

/-- GET /:projectId from src/routes/note.routes.js; router.use(verifyJWT)
puts the credential check at the head of every chain. -/
def getNotesRoute : NoteRoute :=
  ⟨Method.get, "/:projectId",
    [Stage.verifyJWT, Stage.validateProjectPermission AvailableUserRoles,
     Stage.handler "getNotes"]⟩

/-- POST /:projectId from src/routes/note.routes.js. -/
def createNoteRoute : NoteRoute :=
  ⟨Method.post, "/:projectId",
    [Stage.verifyJWT, Stage.validateProjectPermission [Role.admin],
     Stage.notesValidator, Stage.validate, Stage.handler "createNote"]⟩

/-- GET /:projectId/n/:noteId from src/routes/note.routes.js. -/
def getNoteByIdRoute : NoteRoute :=
  ⟨Method.get, "/:projectId/n/:noteId",
    [Stage.verifyJWT, Stage.validateProjectPermission AvailableUserRoles,
     Stage.handler "getNoteById"]⟩

/-- PUT /:projectId/n/:noteId from src/routes/note.routes.js. -/
def updateNoteRoute : NoteRoute :=
  ⟨Method.put, "/:projectId/n/:noteId",
    [Stage.verifyJWT, Stage.validateProjectPermission [Role.admin],
     Stage.notesValidator, Stage.validate, Stage.handler "updateNote"]⟩

/-- DELETE /:projectId/n/:noteId from src/routes/note.routes.js. -/
def deleteNoteRoute : NoteRoute :=
  ⟨Method.delete, "/:projectId/n/:noteId",
    [Stage.verifyJWT, Stage.validateProjectPermission [Role.admin],
     Stage.handler "deleteNote"]⟩

/-- The full route table of the note router, src/routes/note.routes.js. -/
def noteRoutes : List NoteRoute :=
  [getNotesRoute, createNoteRoute, getNoteByIdRoute, updateNoteRoute,
   deleteNoteRoute]

/-- The per-request inputs the middleware chain consults: whether the bearer
token verifies, the membership store, the caller identity and target project,
and whether the payload satisfies the notes schema. -/
structure Request where
  authOk : Bool
  db : MembershipDB
  userId : Nat
  projectId : Nat
  payloadOk : Bool
deriving DecidableEq

/-- Modelled from the spec: whether a stage passes control to the next one.
verifyJWT passes only an authenticated request (section 4.1);
validateProjectPermission passes only on Allow (section 4.3); the schema
stage records field errors and hands over to validate, which passes only a
valid payload (section 4.4); a handler terminates the chain normally. -/
def stagePasses (req : Request) : Stage → Bool
  | Stage.verifyJWT => req.authOk
  | Stage.validateProjectPermission roles =>
      match authorize req.db req.userId req.projectId roles with
      | Decision.allow _ => true
      | Decision.deny _ => false
  | Stage.notesValidator => true
  | Stage.validate => req.payloadOk
  | Stage.handler _ => true

/-- The stages a request actually runs: express middleware short-circuits,
so the chain is walked in order up to and including the first stage that
rejects (spec section 4 state machine: Rejected is terminal). -/
def executed (req : Request) : List Stage → List Stage
  | [] => []
  | s :: rest =>
      if stagePasses req s then s :: executed req rest else [s]

/-- The two Request Validator stages of a chain. -/
def isValidatorStage : Stage → Bool
  | Stage.notesValidator => true
  | Stage.validate => true
  | _ => false

/-- The permission-gate stage of a chain. -/
def isPermissionStage : Stage → Bool
  | Stage.validateProjectPermission _ => true
  | _ => false

/-- A chain is guarded when every Request Validator stage in it is preceded
both by verifyJWT and by a validateProjectPermission stage. -/
def guardedChain (chain : List Stage) : Bool :=
  (List.range chain.length).all fun i =>
    !(isValidatorStage (chain.getD i Stage.verifyJWT)) ||
      ((chain.take i).contains Stage.verifyJWT &&
       (chain.take i).any isPermissionStage)

/-- Claim C3: on every note route the validator stages sit after verifyJWT
and after validateProjectPermission, and a request whose token fails
verification never reaches a Request Validator stage. -/
theorem note_routes_validator_after_auth :
    (∀ route ∈ noteRoutes, guardedChain route.chain = true) ∧
    (∀ route ∈ noteRoutes, ∀ req : Request, req.authOk = false →
      (executed req route.chain).all
        (fun s => !(isValidatorStage s)) = true) := by
  constructor
  · decide
  · intro route hroute req hauth
    have hchains : route = getNotesRoute ∨ route = createNoteRoute ∨
        route = getNoteByIdRoute ∨ route = updateNoteRoute ∨
        route = deleteNoteRoute := by
      simpa [noteRoutes] using hroute
    rcases hchains with rfl | rfl | rfl | rfl | rfl <;>
      simp [getNotesRoute, createNoteRoute, getNoteByIdRoute,
        updateNoteRoute, deleteNoteRoute, executed, stagePasses, hauth,
        isValidatorStage]

/-- Witness for C3: on the concrete create-note route, a request with a
failing token executes no validator stage. -/
theorem note_routes_validator_after_auth_witness :
    createNoteRoute ∈ noteRoutes ∧
    (⟨false, ⟨[]⟩, 0, 0, true⟩ : Request).authOk = false ∧
    (executed ⟨false, ⟨[]⟩, 0, 0, true⟩ createNoteRoute.chain).all
      (fun s => !(isValidatorStage s)) = true :=
  ⟨by decide, rfl,
    note_routes_validator_after_auth.2 createNoteRoute (by decide)
      ⟨false, ⟨[]⟩, 0, 0, true⟩ rfl⟩

/-- The allowed-role set a route declares: the roles of its first
validateProjectPermission stage. -/
def routeRoles (route : NoteRoute) : Option (List Role) :=
  route.chain.findSome? fun s =>
    match s with
    | Stage.validateProjectPermission roles => some roles
    | _ => none

/-- Claim C5: every mutating note route (POST, PUT, DELETE) declares exactly
the allowed-role set [ADMIN]; every read route (GET) declares the full
enumerated set AvailableUserRoles, which contains every role; and every note
route puts verifyJWT first, so each requires a bearer credential. -/
theorem note_routes_role_policy :
    (∀ route ∈ noteRoutes,
      (route.method = Method.post ∨ route.method = Method.put ∨
        route.method = Method.delete) →
      routeRoles route = some [Role.admin]) ∧
    (∀ route ∈ noteRoutes, route.method = Method.get →
      routeRoles route = some AvailableUserRoles) ∧
    (∀ route ∈ noteRoutes, route.chain.head? = some Stage.verifyJWT) ∧
    (∀ r : Role, r ∈ AvailableUserRoles) := by
  refine ⟨?_, ?_, ?_, ?_⟩
  · intro route hroute hm
    have hchains : route = getNotesRoute ∨ route = createNoteRoute ∨
        route = getNoteByIdRoute ∨ route = updateNoteRoute ∨
        route = deleteNoteRoute := by
      simpa [noteRoutes] using hroute
    rcases hchains with rfl | rfl | rfl | rfl | rfl <;>
      first
        | rfl
        | (rcases hm with hm | hm | hm <;> cases hm)
  · intro route hroute hm
    have hchains : route = getNotesRoute ∨ route = createNoteRoute ∨
        route = getNoteByIdRoute ∨ route = updateNoteRoute ∨
        route = deleteNoteRoute := by
      simpa [noteRoutes] using hroute
    rcases hchains with rfl | rfl | rfl | rfl | rfl <;>
      first
        | rfl
        | cases hm
  · intro route hroute
    have hchains : route = getNotesRoute ∨ route = createNoteRoute ∨
        route = getNoteByIdRoute ∨ route = updateNoteRoute ∨
        route = deleteNoteRoute := by
      simpa [noteRoutes] using hroute
    rcases hchains with rfl | rfl | rfl | rfl | rfl <;> rfl
  · intro r
    cases r <;> decide

/-- Witness for C5: the concrete PUT route is mutating and declares exactly
[ADMIN]. -/
theorem note_routes_role_policy_witness :
    updateNoteRoute ∈ noteRoutes ∧
    routeRoles updateNoteRoute = some [Role.admin] :=
  ⟨by decide,
    note_routes_role_policy.1 updateNoteRoute (by decide)
      (Or.inr (Or.inl rfl))⟩

/-- An ApiError instance, after the constructor of src/utils/api-error.js
has run: statusCode, message, data (always null), success (always false),
errors, stack.  Error.captureStackTrace is a runtime effect; the stack field
here is the final stack string the instance carries. -/
structure ApiErrorObj where
  statusCode : Nat
  message : String
  data : Option Unit
  success : Bool
  errors : List String
  stack : String
deriving DecidableEq

/-- The ApiError constructor of src/utils/api-error.js: sets data to null
and success to false unconditionally. -/
def mkApiError (statusCode : Nat) (message : String) (errors : List String)
    (stack : String) : ApiErrorObj :=
  ⟨statusCode, message, none, false, errors, stack⟩

/-- An ApiResponse instance, src/utils/api-response.js. -/
structure ApiResponseObj (α : Type) where
  statusCode : Nat
  data : α
  message : String
  success : Bool
deriving DecidableEq

/-- The ApiResponse constructor of src/utils/api-response.js: success is
statusCode < 400. -/
def mkApiResponse {α : Type} (statusCode : Nat) (data : α)
    (message : String) : ApiResponseObj α :=
  ⟨statusCode, data, message, decide (statusCode < 400)⟩

/-- A project note document, src/models/note.models.js fields used by the
note controllers. -/
structure Note where
  id : Nat
  project : Nat
  content : String
  createdBy : Nat
deriving DecidableEq

/-- The persistent store the note controllers touch: the ids of existing
projects, the note collection, and the id the next created note receives. -/
structure NotesDB where
  projects : List Nat
  notes : List Note
  nextId : Nat
deriving DecidableEq

/-- Project.findById reduced to existence: the controllers only test the
result for null. -/
def projectFindById (db : NotesDB) (projectId : Nat) : Bool :=
  db.projects.contains projectId

/-- ProjectNote.findById. -/
def noteFindById (db : NotesDB) (noteId : Nat) : Option Note :=
  db.notes.find? fun n => n.id == noteId

/-- The path parameters every note route carries
(/:projectId and, on item routes, /:noteId). -/
structure Params where
  projectId : Nat
  noteId : Nat
deriving DecidableEq

/-- getNotes from src/controllers/note.controllers.js: 404 when the project
does not exist, else the notes of that project. -/
def getNotes (db : NotesDB) (p : Params) :
    Except ApiErrorObj (ApiResponseObj (List Note)) × NotesDB :=
  if projectFindById db p.projectId = false then
    (Except.error (mkApiError 404 "Project not found" [] ""), db)
  else
    (Except.ok (mkApiResponse 200
      (db.notes.filter fun n => n.project == p.projectId)
      "Notes fetched successfully"), db)

/-- createNote from src/controllers/note.controllers.js: 404 when the
project does not exist, else insert a note for that project by the caller. -/
def createNote (db : NotesDB) (p : Params) (userId : Nat)
    (content : String) :
    Except ApiErrorObj (ApiResponseObj Note) × NotesDB :=
  if projectFindById db p.projectId = false then
    (Except.error (mkApiError 404 "Project not found" [] ""), db)
  else
    (Except.ok (mkApiResponse 201 ⟨db.nextId, p.projectId, content, userId⟩
      "Note created successfully"),
     ⟨db.projects, db.notes ++ [⟨db.nextId, p.projectId, content, userId⟩],
      db.nextId + 1⟩)

/-- updateNote from src/controllers/note.controllers.js: looks the note up
by its id alone (the projectId parameter is never read), 404 when absent,
else rewrites its content. -/
def updateNote (db : NotesDB) (p : Params) (content : String) :
    Except ApiErrorObj (ApiResponseObj Note) × NotesDB :=
  match noteFindById db p.noteId with
  | none => (Except.error (mkApiError 404 "Note not found" [] ""), db)
  | some old =>
      (Except.ok (mkApiResponse 200 ⟨old.id, old.project, content,
          old.createdBy⟩ "Note updated successfully"),
       ⟨db.projects,
        db.notes.map fun n =>
          if n.id == p.noteId then ⟨n.id, n.project, content, n.createdBy⟩
          else n,
        db.nextId⟩)

/-- deleteNote from src/controllers/note.controllers.js: findByIdAndDelete
by note id alone, 404 when it deleted nothing. -/
def deleteNote (db : NotesDB) (p : Params) :
    Except ApiErrorObj (ApiResponseObj Note) × NotesDB :=
  match noteFindById db p.noteId with
  | none => (Except.error (mkApiError 404 "Note not found" [] ""), db)
  | some n =>
      (Except.ok (mkApiResponse 200 n "Note deleted successfully"),
       ⟨db.projects, db.notes.filter (fun m => !(m.id == p.noteId)),
        db.nextId⟩)

/-- getNoteById from src/controllers/note.controllers.js: lookup by note id
alone, 404 when absent. -/
def getNoteById (db : NotesDB) (p : Params) :
    Except ApiErrorObj (ApiResponseObj Note) × NotesDB :=
  match noteFindById db p.noteId with
  | none => (Except.error (mkApiError 404 "Note not found" [] ""), db)
  | some n =>
      (Except.ok (mkApiResponse 200 n "Note fetched successfully"), db)

/-- Claim C6: when the target project does not exist, getNotes and
createNote fail with a 404 ApiError and leave the store unchanged (no note
created); when the target note does not exist, updateNote, deleteNote and
getNoteById fail with a 404 ApiError and leave the store unchanged. -/
theorem note_controllers_404_terminal (db : NotesDB) (p : Params)
    (userId : Nat) (content : String) :
    (mkApiError 404 "Project not found" [] "").statusCode = 404 ∧
    (projectFindById db p.projectId = false →
      (getNotes db p).1 =
        Except.error (mkApiError 404 "Project not found" [] "") ∧
      (getNotes db p).2 = db ∧
      (createNote db p userId content).1 =
        Except.error (mkApiError 404 "Project not found" [] "") ∧
      (createNote db p userId content).2 = db) ∧
    (noteFindById db p.noteId = none →
      (updateNote db p content).1 =
        Except.error (mkApiError 404 "Note not found" [] "") ∧
      (updateNote db p content).2 = db ∧
      (deleteNote db p).1 =
        Except.error (mkApiError 404 "Note not found" [] "") ∧
      (deleteNote db p).2 = db ∧
      (getNoteById db p).1 =
        Except.error (mkApiError 404 "Note not found" [] "") ∧
      (getNoteById db p).2 = db) := by
  refine ⟨rfl, ?_, ?_⟩
  · intro hproj
    simp [getNotes, createNote, hproj]
  · intro hnote
    simp [updateNote, deleteNote, getNoteById, hnote]

/-- Witness for C6: on an empty store, getNotes for the absent project 0
fails and changes nothing. -/
theorem note_controllers_404_terminal_witness :
    projectFindById ⟨[], [], 0⟩ (⟨0, 0⟩ : Params).projectId = false ∧
    (getNotes ⟨[], [], 0⟩ ⟨0, 0⟩).1 =
      Except.error (mkApiError 404 "Project not found" [] "") ∧
    (getNotes ⟨[], [], 0⟩ ⟨0, 0⟩).2 = ⟨[], [], 0⟩ := by
  refine ⟨rfl, ?_⟩
  have h := (note_controllers_404_terminal ⟨[], [], 0⟩ ⟨0, 0⟩ 0 "").2.1 rfl
  exact ⟨h.1, h.2.1⟩

/-- Claim C9: getNoteById, updateNote and deleteNote depend only on the
noteId path parameter (and, for update, the content); two parameter records
differing only in projectId produce identical responses and identical
stores, so authorization on one project admits operating on another
project's note. -/
theorem note_item_handlers_ignore_projectId (db : NotesDB) (p q : Params)
    (content : String) (h : p.noteId = q.noteId) :
    getNoteById db p = getNoteById db q ∧
    updateNote db p content = updateNote db q content ∧
    deleteNote db p = deleteNote db q := by
  refine ⟨?_, ?_, ?_⟩ <;> simp only [getNoteById, updateNote, deleteNote, h]

/-- Witness for C9: note 5 belongs to project 1, yet deleting it through a
request whose projectId is 2 behaves exactly as through project 1. -/
theorem note_item_handlers_ignore_projectId_witness :
    (⟨1, 5⟩ : Params).noteId = (⟨2, 5⟩ : Params).noteId ∧
    deleteNote ⟨[1, 2], [⟨5, 1, "x", 9⟩], 6⟩ ⟨1, 5⟩ =
      deleteNote ⟨[1, 2], [⟨5, 1, "x", 9⟩], 6⟩ ⟨2, 5⟩ :=
  ⟨rfl,
    (note_item_handlers_ignore_projectId ⟨[1, 2], [⟨5, 1, "x", 9⟩], 6⟩
      ⟨1, 5⟩ ⟨2, 5⟩ "" rfl).2.2⟩

/-- JavaScript truthiness of an optional numeric property: undefined and 0
are falsy. -/
def truthyNat : Option Nat → Bool
  | none => false
  | some n => n != 0

/-- An error reaching the boundary errorHandler of
src/middlewares/error.middleware.js: either an ApiError instance (carrying
its constructor arguments) or some other error, which may carry its own
statusCode property and may be a mongoose.Error. -/
inductive IncomingError where
  | apiError (statusCode : Nat) (message : String) (errors : List String)
      (stack : String)
  | other (statusCode : Option Nat) (mongooseErr : Bool) (message : String)
      (errors : List String) (stack : String)
deriving DecidableEq

/-- The normalization step of errorHandler: an ApiError passes through; any
other error is rebuilt as an ApiError whose statusCode is the source
expression (error.statusCode || error instanceof mongoose.Error) ? 400 : 500
— JavaScript gives the disjunction precedence over the conditional — and
whose message falls back to the default when falsy (empty). -/
def normalizeError : IncomingError → ApiErrorObj
  | IncomingError.apiError sc msg errs st => mkApiError sc msg errs st
  | IncomingError.other sc mongooseErr msg errs st =>
      mkApiError (if truthyNat sc || mongooseErr then 400 else 500)
        (if msg == "" then "Something went wrong" else msg) errs st

/-- The JSON body errorHandler sends: the spread of the ApiError, its
message, and a stack field only when it is included. -/
structure ErrResponse where
  statusCode : Nat
  message : String
  data : Option Unit
  success : Bool
  errors : List String
  stack : Option String
deriving DecidableEq

/-- errorHandler from src/middlewares/error.middleware.js: normalizes the
error, replies with HTTP status error.statusCode, and spreads the error into
the body, adding stack only when NODE_ENV is development. -/
def errorHandler (env : String) (err : IncomingError) : Nat × ErrResponse :=
  (((normalizeError err).statusCode : Nat),
   ⟨(normalizeError err).statusCode, (normalizeError err).message,
    (normalizeError err).data, (normalizeError err).success,
    (normalizeError err).errors,
    if env == "development" then some (normalizeError err).stack else none⟩)

/-- Counterexample to C2 as stated: a mongoose error that is not an ApiError
is answered with HTTP status 400, not 500, because in the source expression
error.statusCode || error instanceof mongoose.Error ? 400 : 500 the
disjunction binds tighter than the conditional. -/
theorem errorHandler_mongoose_counterexample :
    (errorHandler "production"
      (IncomingError.other none true "db down" [] "trace")).1 ≠ 500 ∧
    (errorHandler "production"
      (IncomingError.other none true "db down" [] "trace")).1 = 400 := by
  constructor
  · decide
  · rfl

/-- Claim C2 (amended): every non-ApiError error is normalized into an
ApiError-shaped body (success false, data null, the error message or its
default); the HTTP status is 400 whenever the error carries a truthy own
statusCode or is a mongoose error, and 500 exactly when neither holds. -/
theorem errorHandler_normalizes_non_apierror (env : String)
    (sc : Option Nat) (mongooseErr : Bool) (msg : String)
    (errs : List String) (st : String) :
    (errorHandler env
      (IncomingError.other sc mongooseErr msg errs st)).2.success = false ∧
    (errorHandler env
      (IncomingError.other sc mongooseErr msg errs st)).2.data = none ∧
    (errorHandler env (IncomingError.other sc mongooseErr msg errs st)).1 =
      (if truthyNat sc || mongooseErr then 400 else 500) ∧
    (truthyNat sc = false → mongooseErr = false →
      (errorHandler env
        (IncomingError.other sc mongooseErr msg errs st)).1 = 500) := by
  refine ⟨rfl, rfl, rfl, ?_⟩
  intro hsc hm
  simp [errorHandler, normalizeError, mkApiError, hsc, hm]

/-- Witness for C2 (amended): a plain error with no own statusCode that is
not a mongoose error is answered with status 500. -/
theorem errorHandler_normalizes_non_apierror_witness :
    truthyNat none = false ∧ false = false ∧
    (errorHandler "production"
      (IncomingError.other none false "boom" [] "trace")).1 = 500 :=
  ⟨rfl, rfl,
    (errorHandler_normalizes_non_apierror "production" none false "boom"
      [] "trace").2.2.2 rfl rfl⟩

/-- Claim C8: the body sent by errorHandler carries a stack field exactly
when NODE_ENV is development — a non-production operating mode — and in
production it never does. -/
theorem errorHandler_stack_only_in_development (env : String)
    (err : IncomingError) :
    ((errorHandler env err).2.stack).isSome = (env == "development") ∧
    (errorHandler "production" err).2.stack = none ∧
    ("production" == "development") = false := by
  refine ⟨?_, ?_, rfl⟩
  · cases h : env == "development" <;> simp [errorHandler, h]
  · simp [errorHandler]

/-- Claim C10: every ApiError instance has success false and data null;
every ApiResponse with statusCode < 400 has success true; and errorHandler
replies with HTTP status equal to the normalized ApiError's statusCode and a
body whose success is false — no error response is marked successful. -/
theorem api_shapes_success_invariants {α : Type} (sc : Nat) (msg : String)
    (errs : List String) (st : String) (rsc : Nat) (rdata : α)
    (rmsg : String) (env : String) (err : IncomingError) :
    (mkApiError sc msg errs st).success = false ∧
    (mkApiError sc msg errs st).data = none ∧
    (rsc < 400 → (mkApiResponse rsc rdata rmsg).success = true) ∧
    (errorHandler env err).1 = (normalizeError err).statusCode ∧
    (errorHandler env err).2.success = false := by
  refine ⟨rfl, rfl, ?_, rfl, ?_⟩
  · intro hlt
    simp [mkApiResponse, hlt]
  · cases err <;> simp [errorHandler, normalizeError, mkApiError]

/-- Witness for C10: the concrete 200 ApiResponse is marked successful. -/
theorem api_shapes_success_invariants_witness :
    (200 : Nat) < 400 ∧
    (mkApiResponse 200 ([] : List Note) "ok").success = true :=
  ⟨by decide,
    (api_shapes_success_invariants 0 "" [] "" 200 ([] : List Note) "ok"
      "production" (IncomingError.other none false "" [] "")).2.2.1
      (by decide)⟩

end ProjectCamp
